import Mathlib

/-!
Shallow embedding of the zen-astrology Flask service (src/app.py) in Lean 4.

The single route handler `generate_chart` (src/app.py lines 87-303) is
translated into total Lean functions:

* JSON field values that may be missing or non-numeric are modelled by `JVal`;
  a Python `TypeError` raised by a comparison or by `datetime` on a bad value
  is modelled by the `Except.error` channel, which the outermost
  `try ... except Exception` of the handler turns into a `success=false`
  response (`Resp.err`).
* Python dict literals and JSON objects are modelled as association lists in
  source order; lookup takes the LAST matching entry, mirroring the fact that
  a duplicated key in a Python dict literal is overwritten by the later entry.
* The external kerykeion library (`AstrologicalSubject`, `KerykeionChartSVG`)
  is out of scope per the spec; it is modelled by an `Engine` record of
  functions returning `Except String _`, so that any behaviour of the external
  code (success, exception) is quantified over.
* Floating point positions are modelled by `ℚ`; `abs` is Python `abs`.
-/

/-- A JSON value as received for the date and time fields: Python distinguishes
ints and floats (only ints are accepted by `datetime`), and a missing field is
`None` (`JVal.null`). -/
inductive JVal where
  | int (n : Int)
  | float (q : ℚ)
  | str (s : String)
  | null
deriving DecidableEq

/-- Lookup in an association list where the LAST binding of a key wins,
matching the semantics of a Python dict literal (a later duplicate key
overwrites the earlier entry) and of JSON object parsing. -/
def lookupLast {α : Type} : List (String × α) → String → Option α
  | [], _ => none
  | (a, v) :: rest, k =>
    match lookupLast rest k with
    | some r => some r
    | none => if a == k then some v else none

/-- Test whether the first character list leads the second one, i.e. Python
`s.startswith(pat)` reads `leadsWith pat.data s.data`. -/
def leadsWith : List Char → List Char → Bool
  | [], _ => true
  | _ :: _, [] => false
  | a :: as, b :: bs => a == b && leadsWith as bs

/-- Python `s.startswith(pat)`. -/
def pyStartsWith (s pat : String) : Bool := leadsWith pat.data s.data

/-- Fuel-driven core of Python `str.replace`: scan left to right, replace each
occurrence of `pat` (when non-empty) and resume after the replacement. The
fuel is the length of the scanned list, which bounds the number of steps. -/
def pyReplaceAux (pat rep : List Char) : Nat → List Char → List Char
  | 0, s => s
  | _ + 1, [] => []
  | fuel + 1, c :: rest =>
    if leadsWith pat (c :: rest) && !pat.isEmpty then
      rep ++ pyReplaceAux pat rep fuel ((c :: rest).drop pat.length)
    else
      c :: pyReplaceAux pat rep fuel rest

/-- Python `s.replace(pat, rep)` (replaces every occurrence). -/
def pyReplace (s pat rep : String) : String :=
  ⟨pyReplaceAux pat.data rep.data s.data.length s.data⟩

/-- Python `s.lower()` on the ASCII strings used by the program. -/
def pyLower (s : String) : String := ⟨s.data.map Char.toLower⟩

/-- Python `abs` on a float, modelled on `ℚ`. -/
def pyAbs (q : ℚ) : ℚ := if q < 0 then -q else q

/-- The raw body of a POST /generate-chart request after `data.get(...)`
extraction (src/app.py lines 91-104).  String-typed fields use `""` for a
missing value: Python only ever tests them for truthiness (`not x`), where
`None` and `""` agree, before using them.  `latitude`/`longitude` are compared
with `is None`, hence `Option`. `input_method` and `name` carry the `get`
defaults `'city'` and `'User'`. -/
structure RequestData where
  name : String
  year : JVal
  month : JVal
  day : JVal
  hour : JVal
  minute : JVal
  input_method : String
  city : String
  state : String
  country : String
  latitude : Option ℚ
  longitude : Option ℚ
  timezone : String
deriving DecidableEq

/-- One city entry of city_data.json: looked up by country, then matched on
city and state (src/app.py line 138). -/
structure CityRec where
  city : String
  state : String
  lat : ℚ
  lng : ℚ
deriving DecidableEq

/-- The static tables loaded at startup: `city_data.json` and the two
mappings of `interpretations.json` (src/app.py lines 17-37, 263, 270). -/
structure Env where
  city_data : List (String × List CityRec)
  planets_in_houses : List (String × List (String × String))
  aspects_tbl : List (String × String)

/-- One celestial body of the externally computed subject: `sign`, `position`
and `house` attributes as read by the handler. -/
structure BodyT where
  sign : String
  position : ℚ
  house : String
deriving DecidableEq

/-- One house cusp of `subject.houses_list`. -/
structure HouseT where
  sign : String
  position : ℚ
deriving DecidableEq

/-- One entry of `subject.aspects_list` as read on src/app.py lines 216-222. -/
structure EngAspect where
  p1_name : String
  p2_name : String
  aspect_type : String
  orb : ℚ
deriving DecidableEq

/-- The externally computed astrological subject.  `houses_list` and
`aspects_list` are `Option` because accessing a missing attribute raises
`AttributeError`, which the handler catches (src/app.py lines 200, 223). -/
structure Subject where
  first_house : BodyT
  sun : BodyT
  moon : BodyT
  mercury : BodyT
  venus : BodyT
  mars : BodyT
  jupiter : BodyT
  saturn : BodyT
  uranus : BodyT
  neptune : BodyT
  pluto : BodyT
  houses_list : Option (List HouseT)
  aspects_list : Option (List EngAspect)
deriving DecidableEq

/-- The external kerykeion library, quantified over: `subject` models the
`AstrologicalSubject(name, year, month, day, hour, minute, lng, lat, tz_str)`
constructor and `render` models `KerykeionChartSVG(subject).makeTemplate`;
an `Except.error` models a raised exception. -/
structure Engine where
  subject : String → JVal → JVal → JVal → JVal → JVal → ℚ → ℚ → String → Except String Subject
  render : Subject → Except String String

/-- One planet record of the response (src/app.py lines 164-176). -/
structure Planet where
  name : String
  sign : String
  degree : ℚ
  house : String
deriving DecidableEq

/-- One house record of the response (src/app.py lines 193-199). -/
structure HouseRec where
  house : Nat
  sign : String
  degree : ℚ
deriving DecidableEq

/-- One aspect record of the response (src/app.py lines 217-222, 245-250). -/
structure AspectRec where
  planet1 : String
  planet2 : String
  aspect : String
  orb : ℚ
deriving DecidableEq

/-- The JSON response of the route: either the success payload of src/app.py
lines 289-297 or `{'success': False, 'error': msg}`. -/
inductive Resp where
  | ok (svg : String) (planets : List Planet) (houses : List HouseRec)
      (aspects : List AspectRec) (planet_interpretations : List String)
      (aspects_text : List String)
  | err (msg : String)
deriving DecidableEq

/-- The `utc_to_pytz` dict literal of src/app.py lines 40-74, in source order.
The key `'8'` occurs twice; under Python dict-literal semantics the later
entry (`'Asia/Shanghai'`) overwrites the earlier one (`'Australia/Perth'`). -/
def utc_to_pytz : List (String × String) :=
  [("-10", "Pacific/Honolulu"),
   ("-9", "America/Anchorage"),
   ("-8", "America/Los_Angeles"),
   ("-7", "America/Denver"),
   ("-6", "America/Chicago"),
   ("-5", "America/New_York"),
   ("-4", "America/Halifax"),
   ("0", "Europe/London"),
   ("2", "Africa/Johannesburg"),
   ("8", "Australia/Perth"),
   ("9.5", "Australia/Adelaide"),
   ("10", "Australia/Sydney"),
   ("12", "Pacific/Auckland"),
   ("12.75", "Pacific/Chatham"),
   ("-12", "Etc/GMT+12"),
   ("-11", "Pacific/Pago_Pago"),
   ("-3", "America/Sao_Paulo"),
   ("-2", "Atlantic/South_Georgia"),
   ("-1", "Atlantic/Azores"),
   ("1", "Europe/Paris"),
   ("3", "Europe/Moscow"),
   ("4", "Asia/Dubai"),
   ("5", "Asia/Karachi"),
   ("5.5", "Asia/Kolkata"),
   ("6", "Asia/Dhaka"),
   ("7", "Asia/Bangkok"),
   ("8", "Asia/Shanghai"),
   ("9", "Asia/Tokyo"),
   ("11", "Pacific/Guadalcanal"),
   ("13", "Pacific/Tongatapu"),
   ("14", "Pacific/Kiritimati")]

/-- Modelled from the spec: the pytz timezone database (the external `pytz`
package is out of scope).  Per the spec, every zone name in the fixed offset
table is a recognized IANA identifier, so the model database holds exactly
the IANA zone names that appear as values of `utc_to_pytz`. -/
def pytz_all_zone_names : List String :=
  ["Pacific/Honolulu", "America/Anchorage", "America/Los_Angeles",
   "America/Denver", "America/Chicago", "America/New_York", "America/Halifax",
   "Europe/London", "Africa/Johannesburg", "Australia/Perth",
   "Australia/Adelaide", "Australia/Sydney", "Pacific/Auckland",
   "Pacific/Chatham", "Etc/GMT+12", "Pacific/Pago_Pago", "America/Sao_Paulo",
   "Atlantic/South_Georgia", "Atlantic/Azores", "Europe/Paris",
   "Europe/Moscow", "Asia/Dubai", "Asia/Karachi", "Asia/Kolkata",
   "Asia/Dhaka", "Asia/Bangkok", "Asia/Shanghai", "Asia/Tokyo",
   "Pacific/Guadalcanal", "Pacific/Tongatapu", "Pacific/Kiritimati"]

/-- Modelled from the spec: `pytz.timezone(z)` succeeds exactly when `z` is a
recognized zone identifier of the timezone database. -/
def pytz_recognized (z : String) : Bool := pytz_all_zone_names.contains z

/-- The `house_names` dict literal of src/app.py lines 179-183, in source
(= iteration) order. -/
def house_names : List (String × String) :=
  [("First", "First_House"), ("Second", "Second_House"),
   ("Third", "Third_House"), ("Fourth", "Fourth_House"),
   ("Fifth", "Fifth_House"), ("Sixth", "Sixth_House"),
   ("Seventh", "Seventh_House"), ("Eighth", "Eighth_House"),
   ("Ninth", "Ninth_House"), ("Tenth", "Tenth_House"),
   ("Eleventh", "Eleventh_House"), ("Twelfth", "Twelfth_House")]

/-- The `aspect_type_mapping` dict literal of src/app.py lines 205-211. -/
def aspect_type_mapping : List (String × String) :=
  [("Conjunction", "conjunct"), ("Opposition", "opposition"),
   ("Square", "square"), ("Trine", "trine"), ("Sextile", "sextile")]

/-- Python chained comparison `lo <= v <= hi` on a JSON value: succeeds with
the boolean outcome on an int or float, raises `TypeError` otherwise
(src/app.py lines 107-116). -/
def jvalCmp (lo : Int) (v : JVal) (hi : Int) : Except String Bool :=
  match v with
  | .int n => .ok (decide (lo ≤ n ∧ n ≤ hi))
  | .float q => .ok (decide ((lo : ℚ) ≤ q ∧ q ≤ (hi : ℚ)))
  | _ => .error "TypeError: comparison not supported between int and the given operand"

/-- Python leap-year rule used by `datetime` (Gregorian). -/
def pyIsLeap (y : Int) : Bool := y % 4 == 0 && (y % 100 != 0 || y % 400 == 0)

/-- Number of days of month `m` of year `y`, as validated by
`datetime.__new__`. -/
def pyDaysInMonth (y m : Int) : Int :=
  if m == 2 then (if pyIsLeap y then 29 else 28)
  else if m == 4 || m == 6 || m == 9 || m == 11 then 30
  else 31

/-- Whether `datetime(y, m, d)` succeeds on integer arguments: CPython checks
`MINYEAR <= y <= MAXYEAR`, `1 <= m <= 12` and `1 <= d <= days_in_month`. -/
def pyDateValid (y m d : Int) : Bool :=
  decide (1 ≤ y) && decide (y ≤ 9999) && decide (1 ≤ m) && decide (m ≤ 12) &&
  decide (1 ≤ d) && decide (d ≤ pyDaysInMonth y m)

/-- The `datetime(year, month, day)` probe of src/app.py lines 119-122:
`.ok false` models the `ValueError` caught there (reported as
`'Invalid date'`), while `.error` models the `TypeError` raised on non-integer
arguments, which `except ValueError` does NOT catch and which therefore
propagates to the outer handler. -/
def datetimeValid : JVal → JVal → JVal → Except String Bool
  | .int y, .int m, .int d => .ok (pyDateValid y m d)
  | _, _, _ => .error "TypeError: an integer is required (got type float)"

/-- The location block of src/app.py lines 125-142: manual mode checks field
presence and coordinate ranges; city mode checks field presence, country
membership of `city_data` and an exact city+state match (first match wins).
`Sum.inl` is a validation-failure message, `Sum.inr` the resolved
(latitude, longitude). -/
def resolveLocation (env : Env) (d : RequestData) : String ⊕ (ℚ × ℚ) :=
  if d.input_method == "manual" then
    match d.latitude, d.longitude with
    | some lat, some lon =>
      if d.timezone == "" then
        .inl "Latitude, longitude, and timezone are required for manual input"
      else if ¬(-90 ≤ lat ∧ lat ≤ 90) then
        .inl "Latitude must be between -90 and 90"
      else if ¬(-180 ≤ lon ∧ lon ≤ 180) then
        .inl "Longitude must be between -180 and 180"
      else
        .inr (lat, lon)
    | _, _ => .inl "Latitude, longitude, and timezone are required for manual input"
  else
    if d.country == "" || d.state == "" || d.city == "" || d.timezone == "" then
      .inl "Country, state, city, and timezone are required"
    else
      match lookupLast env.city_data d.country with
      | none => .inl ("Country " ++ d.country ++ " not found in city data")
      | some cities =>
        match cities.find? (fun c => c.city == d.city && c.state == d.state) with
        | none => .inl ("City " ++ d.city ++ ", " ++ d.state ++ " not found in " ++ d.country)
        | some ci => .inr (ci.lat, ci.lng)

/-- The validation prefix of the handler, src/app.py lines 106-151: date and
time range checks in source order, the `datetime` calendar probe, location
resolution, and timezone resolution.  `Except.error` is an uncaught exception
(it reaches the outer handler); `.ok (.inl msg)` is an early
`{'success': False, 'error': msg}` return; `.ok (.inr (lat, lon, tz))` means
validation passed with the resolved coordinates and pytz zone name. -/
def preflight (env : Env) (d : RequestData) : Except String (String ⊕ (ℚ × ℚ × String)) :=
  match jvalCmp 1900 d.year 2025 with
  | .error e => .error e
  | .ok yok =>
    if yok = false then .ok (.inl "Year must be between 1900 and 2025") else
    match jvalCmp 1 d.month 12 with
    | .error e => .error e
    | .ok mok =>
      if mok = false then .ok (.inl "Month must be between 1 and 12") else
      match jvalCmp 1 d.day 31 with
      | .error e => .error e
      | .ok dok =>
        if dok = false then .ok (.inl "Day must be between 1 and 31") else
        match jvalCmp 0 d.hour 23 with
        | .error e => .error e
        | .ok hok =>
          if hok = false then .ok (.inl "Hour must be between 0 and 23") else
          match jvalCmp 0 d.minute 59 with
          | .error e => .error e
          | .ok minok =>
            if minok = false then .ok (.inl "Minute must be between 0 and 59") else
            match datetimeValid d.year d.month d.day with
            | .error e => .error e
            | .ok dateok =>
              if dateok = false then .ok (.inl "Invalid date") else
              match resolveLocation env d with
              | .inl msg => .ok (.inl msg)
              | .inr (lat, lon) =>
                match lookupLast utc_to_pytz d.timezone with
                | none => .ok (.inl ("Invalid timezone offset: " ++ d.timezone))
                | some tzname =>
                  if pytz_recognized tzname = false then
                    .ok (.inl ("Invalid pytz timezone: " ++ tzname))
                  else .ok (.inr (lat, lon, tzname))

/-- The planet list literal of src/app.py lines 164-176: Ascendant first with
its house hardcoded to `'First_House'`, then the ten planets with the house
string reported by the engine. -/
def buildPlanets (s : Subject) : List Planet :=
  [⟨"Ascendant", s.first_house.sign, s.first_house.position, "First_House"⟩,
   ⟨"Sun", s.sun.sign, s.sun.position, s.sun.house⟩,
   ⟨"Moon", s.moon.sign, s.moon.position, s.moon.house⟩,
   ⟨"Mercury", s.mercury.sign, s.mercury.position, s.mercury.house⟩,
   ⟨"Venus", s.venus.sign, s.venus.position, s.venus.house⟩,
   ⟨"Mars", s.mars.sign, s.mars.position, s.mars.house⟩,
   ⟨"Jupiter", s.jupiter.sign, s.jupiter.position, s.jupiter.house⟩,
   ⟨"Saturn", s.saturn.sign, s.saturn.position, s.saturn.house⟩,
   ⟨"Uranus", s.uranus.sign, s.uranus.position, s.uranus.house⟩,
   ⟨"Neptune", s.neptune.sign, s.neptune.position, s.neptune.house⟩,
   ⟨"Pluto", s.pluto.sign, s.pluto.position, s.pluto.house⟩]

/-- The inner loop of src/app.py lines 186-189: the first `house_names` key
that the house string starts with (dict iteration order = source order)
replaces it; no match leaves the string unchanged. -/
def normalizeHouse (h : String) : String :=
  match house_names.find? (fun kv => pyStartsWith h kv.1) with
  | some kv => kv.2
  | none => h

/-- The house-name cleanup loop of src/app.py lines 184-189, skipping the
Ascendant record. -/
def normalizePlanets (ps : List Planet) : List Planet :=
  ps.map (fun p =>
    if p.name ≠ "Ascendant" then ⟨p.name, p.sign, p.degree, normalizeHouse p.house⟩
    else p)

/-- The houses extraction of src/app.py lines 192-202: 1-indexed enumeration
of `subject.houses_list`, or `[]` when the attribute is missing
(`AttributeError` caught, warning logged). -/
def buildHouses (s : Subject) : List HouseRec :=
  match s.houses_list with
  | some hl => hl.enum.map (fun ih => ⟨ih.1 + 1, ih.2.sign, ih.2.position⟩)
  | none => []

/-- The angle normalization of src/app.py lines 230-231: absolute difference
of the two ecliptic positions, reflected over 180. -/
def normAngle (p q : ℚ) : ℚ :=
  let angle := pyAbs (p - q)
  if angle > 180 then 360 - angle else angle

/-- The elif chain of src/app.py lines 233-243: strict tolerance bands
evaluated in precedence order, `none` when no band matches. -/
def classifyAspect (orb : ℚ) : Option String :=
  if orb < 10 then some "conjunct"
  else if pyAbs (orb - 180) < 10 then some "opposition"
  else if pyAbs (orb - 90) < 10 then some "square"
  else if pyAbs (orb - 120) < 10 then some "trine"
  else if pyAbs (orb - 60) < 10 then some "sextile"
  else none

/-- One iteration of the inner fallback loop, src/app.py lines 230-250:
classify the normalized angle of a pair and build its record (orb = the
normalized angle itself). -/
def aspectOfPair (p q : String × ℚ) : Option AspectRec :=
  let orb := normAngle p.2 q.2
  (classifyAspect orb).map (fun t => ⟨p.1, q.1, t, orb⟩)

/-- All index-ordered pairs (i < j) of a list, in the iteration order of the
nested loops of src/app.py lines 228-229. -/
def pairList {α : Type} : List α → List (α × α)
  | [] => []
  | p :: rest => rest.map (fun q => (p, q)) ++ pairList rest

/-- The manual aspect calculation of src/app.py lines 225-250 over a list of
(name, ecliptic position) bodies. -/
def fallbackAspects (l : List (String × ℚ)) : List AspectRec :=
  (pairList l).filterMap (fun pq => aspectOfPair pq.1 pq.2)

/-- The zip of `planet_names` and `planet_list` positions of src/app.py lines
225-227 (the bodies fed to the fallback aspect calculation). -/
def fallbackBodies (s : Subject) : List (String × ℚ) :=
  [("Ascendant", s.first_house.position), ("Sun", s.sun.position),
   ("Moon", s.moon.position), ("Mercury", s.mercury.position),
   ("Venus", s.venus.position), ("Mars", s.mars.position),
   ("Jupiter", s.jupiter.position), ("Saturn", s.saturn.position),
   ("Uranus", s.uranus.position), ("Neptune", s.neptune.position),
   ("Pluto", s.pluto.position)]

/-- The aspects assembly of src/app.py lines 214-250: the engine list when
`subject.aspects_list` exists, otherwise the manual fallback calculation over
the 11 bodies. -/
def buildAspects (s : Subject) : List AspectRec :=
  match s.aspects_list with
  | some al => al.map (fun a => ⟨a.p1_name, a.p2_name, a.aspect_type, a.orb⟩)
  | none => fallbackAspects (fallbackBodies s)

/-- Nested lookup planet-name -> house -> text in the `planets_in_houses`
mapping (the `in`-checks of src/app.py line 263). -/
def lookup2 (tbl : List (String × List (String × String))) (n h : String) : Option String :=
  match lookupLast tbl n with
  | some hd => lookupLast hd h
  | none => none

/-- One iteration of the planet interpretation loop, src/app.py lines
260-267. -/
def planetLine (tbl : List (String × List (String × String))) (p : Planet) : String :=
  let display_house := pyReplace p.house "_House" " House"
  match lookup2 tbl p.name p.house with
  | some text => p.name ++ " in " ++ display_house ++ ": " ++ text
  | none => p.name ++ " in " ++ display_house ++ ": No interpretation available."

/-- The aspect-kind canonicalization of src/app.py line 274: the fixed
5-entry table, else naive lowercasing. -/
def mappedKind (a : AspectRec) : String :=
  (lookupLast aspect_type_mapping a.aspect).getD (pyLower a.aspect)

/-- The forward key `{planet1}_{kind}_{planet2}` of src/app.py line 275. -/
def aspectKeyFwd (a : AspectRec) : String :=
  a.planet1 ++ "_" ++ mappedKind a ++ "_" ++ a.planet2

/-- The reversed key `{planet2}_{kind}_{planet1}` of src/app.py line 276. -/
def aspectKeyRev (a : AspectRec) : String :=
  a.planet2 ++ "_" ++ mappedKind a ++ "_" ++ a.planet1

/-- The synthesized placeholder of src/app.py line 277 (note it names the RAW
engine aspect kind, not the mapped one). -/
def aspectPlaceholder (a : AspectRec) : String :=
  "No interpretation available for " ++ a.planet1 ++ " " ++ a.aspect ++ " " ++ a.planet2 ++ "."

/-- One iteration of the aspect interpretation loop, src/app.py lines
273-278.  Python `x or y` takes `y` when `x` is `None` OR the empty string,
hence the emptiness test on the forward hit. -/
def aspectLine (atbl : List (String × String)) (a : AspectRec) : String :=
  match lookupLast atbl (aspectKeyFwd a) with
  | some t => if t == "" then (lookupLast atbl (aspectKeyRev a)).getD (aspectPlaceholder a) else t
  | none => (lookupLast atbl (aspectKeyRev a)).getD (aspectPlaceholder a)

/-- The handler body inside the outer `try`, src/app.py lines 90-297.
`Except.error` is an exception reaching the outer `except`. The inner
`try/except Exception` around `AstrologicalSubject` (lines 154-158) maps ANY
constructor failure to the constant message; `KerykeionChartSVG` /
`makeTemplate` (lines 160-161) run OUTSIDE that inner try, so their failures
propagate. -/
def generate_chart_inner (env : Env) (eng : Engine) (d : RequestData) : Except String Resp :=
  match preflight env d with
  | .error e => .error e
  | .ok (.inl msg) => .ok (.err msg)
  | .ok (.inr (lat, lon, tzname)) =>
    match eng.subject d.name d.year d.month d.day d.hour d.minute lon lat tzname with
    | .error _ => .ok (.err "Failed to generate chart: Invalid parameters")
    | .ok subject =>
      match eng.render subject with
      | .error e => .error e
      | .ok svg_data =>
        let planets := normalizePlanets (buildPlanets subject)
        let houses := buildHouses subject
        let aspects := buildAspects subject
        let planet_interpretations := planets.map (planetLine env.planets_in_houses)
        let aspects_text := aspects.map (aspectLine env.aspects_tbl)
        .ok (.ok svg_data planets houses aspects planet_interpretations aspects_text)

/-- The full route handler: the outer `try/except Exception` of src/app.py
lines 89 and 298-303 turns any uncaught exception into
`{'success': False, 'error': str(e)}`. -/
def generate_chart (env : Env) (eng : Engine) (d : RequestData) : Resp :=
  match generate_chart_inner env eng d with
  | .ok r => r
  | .error e => .err e

/-- An engine whose `AstrologicalSubject` constructor and chart rendering both
succeed with fixed results. -/
def constEngine (s : Subject) (svg : String) : Engine :=
  ⟨fun _ _ _ _ _ _ _ _ _ => .ok s, fun _ => .ok svg⟩

/-- An engine whose `AstrologicalSubject` constructor raises. -/
def failSubjectEngine (msg : String) : Engine :=
  ⟨fun _ _ _ _ _ _ _ _ _ => .error msg, fun _ => .ok ""⟩

/-- An engine whose `AstrologicalSubject` constructor succeeds but whose
`KerykeionChartSVG` / `makeTemplate` rendering raises. -/
def renderFailEngine (s : Subject) (msg : String) : Engine :=
  ⟨fun _ _ _ _ _ _ _ _ _ => .ok s, fun _ => .error msg⟩

/-- A sample externally-computed subject with both optional attributes
present (empty lists). -/
def sampleSubject : Subject :=
  ⟨⟨"Leo", 0, "First House"⟩, ⟨"", 0, ""⟩, ⟨"", 0, ""⟩, ⟨"", 0, ""⟩, ⟨"", 0, ""⟩,
   ⟨"", 0, ""⟩, ⟨"", 0, ""⟩, ⟨"", 0, ""⟩, ⟨"", 0, ""⟩, ⟨"", 0, ""⟩, ⟨"", 0, ""⟩,
   some [], some []⟩

/-- A sample externally-computed subject missing both `houses_list` and
`aspects_list`. -/
def noDataSubject : Subject :=
  ⟨⟨"Leo", 0, "First House"⟩, ⟨"", 0, ""⟩, ⟨"", 0, ""⟩, ⟨"", 0, ""⟩, ⟨"", 0, ""⟩,
   ⟨"", 0, ""⟩, ⟨"", 0, ""⟩, ⟨"", 0, ""⟩, ⟨"", 0, ""⟩, ⟨"", 0, ""⟩, ⟨"", 0, ""⟩,
   none, none⟩

/-- A sample environment with empty static tables (the startup fallback when
the JSON files are absent). -/
def sampleEnv : Env := ⟨[], [], []⟩

/-- The manual-mode request of the spec's end-to-end test (integer
coordinates to keep it kernel-evaluable). -/
def manualData : RequestData :=
  ⟨"User", .int 1990, .int 6, .int 15, .int 12, .int 0, "manual", "", "", "",
   some 40, some (-74), "-5"⟩

/-- The planet records produced for `sampleSubject`. -/
def samplePlanets : List Planet :=
  [⟨"Ascendant", "Leo", 0, "First_House"⟩, ⟨"Sun", "", 0, ""⟩, ⟨"Moon", "", 0, ""⟩,
   ⟨"Mercury", "", 0, ""⟩, ⟨"Venus", "", 0, ""⟩, ⟨"Mars", "", 0, ""⟩,
   ⟨"Jupiter", "", 0, ""⟩, ⟨"Saturn", "", 0, ""⟩, ⟨"Uranus", "", 0, ""⟩,
   ⟨"Neptune", "", 0, ""⟩, ⟨"Pluto", "", 0, ""⟩]

/-- The interpretation lines produced for `sampleSubject` under the empty
interpretation table. -/
def sampleLines : List String :=
  ["Ascendant in First House: No interpretation available.",
   "Sun in : No interpretation available.",
   "Moon in : No interpretation available.",
   "Mercury in : No interpretation available.",
   "Venus in : No interpretation available.",
   "Mars in : No interpretation available.",
   "Jupiter in : No interpretation available.",
   "Saturn in : No interpretation available.",
   "Uranus in : No interpretation available.",
   "Neptune in : No interpretation available.",
   "Pluto in : No interpretation available."]

/-- Helper: a successful `lookupLast` hit is a binding of the list. -/
theorem lookupLast_mem {α : Type} (l : List (String × α)) (k : String) (z : α)
    (h : lookupLast l k = some z) : (k, z) ∈ l := by
  induction l with
  | nil => simp [lookupLast] at h
  | cons p rest ih =>
    obtain ⟨a, v⟩ := p
    simp only [lookupLast] at h
    cases hr : lookupLast rest k with
    | some r => rw [hr] at h; exact List.mem_cons_of_mem _ (ih (hr.trans h))
    | none =>
      rw [hr] at h
      by_cases ha : a == k
      · rw [if_pos ha] at h
        obtain rfl : v = z := by injection h
        obtain rfl : a = k := by exact eq_of_beq ha
        exact List.mem_cons_self _ _
      · rw [if_neg (by simp_all)] at h; exact absurd h (by simp)

/-- Helper: inversion of a successful run of the handler — the response
fields are exactly the ones assembled from some engine subject on src/app.py
lines 164-297. -/
theorem gc_ok_inv (env : Env) (eng : Engine) (d : RequestData)
    (svg : String) (ps : List Planet) (hs : List HouseRec) (asp : List AspectRec)
    (pints atext : List String)
    (h : generate_chart env eng d = .ok svg ps hs asp pints atext) :
    ∃ subj, ps = normalizePlanets (buildPlanets subj) ∧ hs = buildHouses subj
      ∧ asp = buildAspects subj
      ∧ pints = ps.map (planetLine env.planets_in_houses)
      ∧ atext = asp.map (aspectLine env.aspects_tbl) := by
  unfold generate_chart generate_chart_inner at h
  cases hp : preflight env d with
  | error e => rw [hp] at h; simp at h
  | ok v =>
    rw [hp] at h
    rcases v with msg | ⟨lat, lon, tz⟩
    · simp at h
    · dsimp only at h
      cases hs2 : eng.subject d.name d.year d.month d.day d.hour d.minute lon lat tz with
      | error e => rw [hs2] at h; simp at h
      | ok subj =>
        rw [hs2] at h
        dsimp only at h
        cases hr : eng.render subj with
        | error e => rw [hr] at h; simp at h
        | ok svg2 =>
          rw [hr] at h
          dsimp only at h
          simp only [Resp.ok.injEq] at h
          obtain ⟨h1, h2, h3, h4, h5, h6⟩ := h
          exact ⟨subj, h2.symm, h3.symm, h4.symm, by rw [← h5, h2], by rw [← h6, h4]⟩

/-- Claim C6: the fallback aspect classification is symmetric in its two
bodies — swapping the pair preserves the classified aspect kind and the orb
angle (the normalized angular separation). -/
theorem spec_C6_symmetry (x y : String × ℚ) :
    ((aspectOfPair x y).map (fun r => r.aspect) = (aspectOfPair y x).map (fun r => r.aspect))
    ∧ ((aspectOfPair x y).map (fun r => r.orb) = (aspectOfPair y x).map (fun r => r.orb))
    ∧ normAngle x.2 y.2 = normAngle y.2 x.2 := by
  have habs : pyAbs (x.2 - y.2) = pyAbs (y.2 - x.2) := by
    simp only [pyAbs]
    rcases lt_trichotomy (x.2 - y.2) 0 with h | h | h
    · rw [if_pos h, if_neg (by linarith), neg_sub]
    · rw [h, show y.2 - x.2 = 0 by linarith]
    · rw [if_neg (by linarith), if_pos (by linarith), neg_sub]
  have hn : normAngle x.2 y.2 = normAngle y.2 x.2 := by
    simp only [normAngle, habs]
  refine ⟨?_, ?_, hn⟩ <;>
    · simp only [aspectOfPair, hn]
      cases classifyAspect (normAngle y.2 x.2) <;> simp

/-- Claim C10: the `utc_to_pytz` dict literal defines the key `'8'` twice
(`'Australia/Perth'` then `'Asia/Shanghai'`); the later entry overwrites the
earlier one, so offset `'8'` resolves to `'Asia/Shanghai'` and
`'Australia/Perth'` is never returned for any offset. -/
theorem spec_C10_duplicate_key :
    ((utc_to_pytz.filter (fun kv => kv.1 == "8")).map (fun kv => kv.2)
      = ["Australia/Perth", "Asia/Shanghai"])
    ∧ lookupLast utc_to_pytz "8" = some "Asia/Shanghai"
    ∧ ∀ k z, lookupLast utc_to_pytz k = some z → z ≠ "Australia/Perth" := by
  refine ⟨by decide, by decide, ?_⟩
  intro k z h hz
  subst hz
  have hmem := lookupLast_mem _ _ _ h
  have hk : k = "8" := by
    have hall : ∀ p ∈ utc_to_pytz, p.2 = "Australia/Perth" → p.1 = "8" := by decide
    exact hall _ hmem rfl
  subst hk
  rw [show lookupLast utc_to_pytz "8" = some "Asia/Shanghai" by decide] at h
  exact absurd (by injection h) (by decide)

/-- Witness for C10 at the concrete offset `'8'`. -/
theorem spec_C10_witness :
    lookupLast utc_to_pytz "8" = some "Asia/Shanghai"
    ∧ "Asia/Shanghai" ≠ "Australia/Perth" :=
  ⟨by decide, spec_C10_duplicate_key.2.2 "8" "Asia/Shanghai" (by decide)⟩

/-- Counterexample for C2 as stated: the claim asserts that two bodies at
positions 0 and 169.9 degrees produce an opposition, but the normalized
angle 169.9 is 10.1 degrees away from 180, outside the strict 10-degree
band, so the fallback calculator emits NO aspect record for the pair. -/
theorem spec_C2_cex :
    fallbackAspects [("A", 0), ("B", (1699 : ℚ)/10)] = []
    ∧ ¬ ∃ r ∈ fallbackAspects [("A", 0), ("B", (1699 : ℚ)/10)], r.aspect = "opposition" := by
  have h : fallbackAspects [("A", 0), ("B", (1699 : ℚ)/10)] = [] := by
    norm_num [fallbackAspects, pairList, aspectOfPair, normAngle, classifyAspect, pyAbs]
  exact ⟨h, by simp [h]⟩

/-- Claim C2 (amended): the normalized angle lies in [0,180]; the bands are
strict and evaluated in precedence order (conjunct, opposition, square,
trine, sextile, else no record); bodies at 0 and 170 degrees (exactly 10
from opposition) produce no record, bodies at 0 and 169.9 degrees (10.1 from
opposition) ALSO produce no record, and bodies at 0 and 170.1 degrees (9.9
from opposition) produce an opposition. -/
theorem spec_C2_fallback_bands :
    (∀ p q : ℚ, 0 ≤ p → p < 360 → 0 ≤ q → q < 360 →
      0 ≤ normAngle p q ∧ normAngle p q ≤ 180)
    ∧ (∀ orb : ℚ,
        (orb < 10 → classifyAspect orb = some "conjunct")
        ∧ (¬ orb < 10 → pyAbs (orb - 180) < 10 → classifyAspect orb = some "opposition")
        ∧ (¬ orb < 10 → ¬ pyAbs (orb - 180) < 10 → pyAbs (orb - 90) < 10 →
            classifyAspect orb = some "square")
        ∧ (¬ orb < 10 → ¬ pyAbs (orb - 180) < 10 → ¬ pyAbs (orb - 90) < 10 →
            pyAbs (orb - 120) < 10 → classifyAspect orb = some "trine")
        ∧ (¬ orb < 10 → ¬ pyAbs (orb - 180) < 10 → ¬ pyAbs (orb - 90) < 10 →
            ¬ pyAbs (orb - 120) < 10 → pyAbs (orb - 60) < 10 →
            classifyAspect orb = some "sextile")
        ∧ (¬ orb < 10 → ¬ pyAbs (orb - 180) < 10 → ¬ pyAbs (orb - 90) < 10 →
            ¬ pyAbs (orb - 120) < 10 → ¬ pyAbs (orb - 60) < 10 →
            classifyAspect orb = none))
    ∧ fallbackAspects [("A", 0), ("B", 170)] = []
    ∧ fallbackAspects [("A", 0), ("B", (1699 : ℚ)/10)] = []
    ∧ fallbackAspects [("A", 0), ("B", (1701 : ℚ)/10)]
        = [⟨"A", "B", "opposition", (1701 : ℚ)/10⟩] := by
  refine ⟨?_, ?_, ?_, ?_, ?_⟩
  · intro p q hp0 hp hq0 hq
    simp only [normAngle, pyAbs]
    split_ifs <;> constructor <;> linarith
  · intro orb
    refine ⟨?_, ?_, ?_, ?_, ?_, ?_⟩
    · intro h1
      simp only [classifyAspect, if_pos h1]
    · intro h1 h2
      simp only [classifyAspect, if_neg h1, if_pos h2]
    · intro h1 h2 h3
      simp only [classifyAspect, if_neg h1, if_neg h2, if_pos h3]
    · intro h1 h2 h3 h4
      simp only [classifyAspect, if_neg h1, if_neg h2, if_neg h3, if_pos h4]
    · intro h1 h2 h3 h4 h5
      simp only [classifyAspect, if_neg h1, if_neg h2, if_neg h3, if_neg h4, if_pos h5]
    · intro h1 h2 h3 h4 h5
      simp only [classifyAspect, if_neg h1, if_neg h2, if_neg h3, if_neg h4, if_neg h5]
  · norm_num [fallbackAspects, pairList, aspectOfPair, normAngle, classifyAspect, pyAbs]
  · norm_num [fallbackAspects, pairList, aspectOfPair, normAngle, classifyAspect, pyAbs]
  · have h1 : normAngle 0 ((1701 : ℚ)/10) = (1701 : ℚ)/10 := by
      simp only [normAngle, pyAbs]
      norm_num
    have h2 : classifyAspect ((1701 : ℚ)/10) = some "opposition" := by
      simp only [classifyAspect, pyAbs]
      norm_num
    simp [fallbackAspects, pairList, aspectOfPair, h1, h2]

/-- Witness for C2 at concrete inputs: the normalized-angle range at
(0, 170) and the conjunct band at orb 5. -/
theorem spec_C2_witness :
    ((0 : ℚ) ≤ normAngle 0 170 ∧ normAngle 0 170 ≤ 180)
    ∧ classifyAspect 5 = some "conjunct" :=
  ⟨spec_C2_fallback_bands.1 0 170 (by decide) (by decide) (by decide) (by decide),
   (spec_C2_fallback_bands.2.1 5).1 (by decide)⟩

/-- Claim C3: interpretation lookup is total — a (planet, house) pair absent
from the table yields a line containing `No interpretation available`; for an
aspect the forward key is tried first, an absent forward key falls back to
the reversed key whose text is returned unchanged, and when both keys are
absent a placeholder naming the two bodies and the raw aspect kind is
produced. -/
theorem spec_C3_lookup_total (tbl : List (String × List (String × String))) (p : Planet)
    (atbl : List (String × String)) (a : AspectRec) :
    (lookup2 tbl p.name p.house = none →
      ∃ pre post, planetLine tbl p = pre ++ "No interpretation available" ++ post)
    ∧ (lookupLast atbl (aspectKeyFwd a) = none → ∀ t,
        lookupLast atbl (aspectKeyRev a) = some t → aspectLine atbl a = t)
    ∧ (lookupLast atbl (aspectKeyFwd a) = none →
        lookupLast atbl (aspectKeyRev a) = none → aspectLine atbl a = aspectPlaceholder a) := by
  refine ⟨?_, ?_, ?_⟩
  · intro h
    refine ⟨p.name ++ " in " ++ pyReplace p.house "_House" " House" ++ ": ", ".", ?_⟩
    simp only [planetLine, h]
    simp only [String.append_assoc]
    rfl
  · intro h1 t h2
    simp [aspectLine, h1, h2]
  · intro h1 h2
    simp [aspectLine, h1, h2]

/-- Witness for C3 at a concrete planet record and aspect record under the
empty interpretation tables. -/
theorem spec_C3_witness :
    (∃ pre post, planetLine [] ⟨"Sun", "Leo", 0, "Tenth_House"⟩
        = pre ++ "No interpretation available" ++ post)
    ∧ aspectLine [] ⟨"Sun", "Moon", "Conjunction", 0⟩
        = aspectPlaceholder ⟨"Sun", "Moon", "Conjunction", 0⟩ :=
  ⟨(spec_C3_lookup_total [] ⟨"Sun", "Leo", 0, "Tenth_House"⟩ [] ⟨"Sun", "Moon", "Conjunction", 0⟩).1 rfl,
   (spec_C3_lookup_total [] ⟨"Sun", "Leo", 0, "Tenth_House"⟩ [] ⟨"Sun", "Moon", "Conjunction", 0⟩).2.2 rfl rfl⟩

/-- Claim C1: validation is applied in the precedence order year, month, day,
hour, minute, calendar validity, location-mode required fields, then
coordinate ranges (manual) or country/city existence (city), and the response
reports the first violated constraint; the year message mentions
`1900 and 2025`. -/
theorem spec_C1_validation_precedence (env : Env) (eng : Engine) (d : RequestData)
    (y m dd hh mi : Int)
    (hy : d.year = .int y) (hm : d.month = .int m) (hd : d.day = .int dd)
    (hho : d.hour = .int hh) (hmi : d.minute = .int mi) :
    (¬(1900 ≤ y ∧ y ≤ 2025) →
      generate_chart env eng d = .err "Year must be between 1900 and 2025")
    ∧ (1900 ≤ y ∧ y ≤ 2025 → ¬(1 ≤ m ∧ m ≤ 12) →
      generate_chart env eng d = .err "Month must be between 1 and 12")
    ∧ (1900 ≤ y ∧ y ≤ 2025 → 1 ≤ m ∧ m ≤ 12 → ¬(1 ≤ dd ∧ dd ≤ 31) →
      generate_chart env eng d = .err "Day must be between 1 and 31")
    ∧ (1900 ≤ y ∧ y ≤ 2025 → 1 ≤ m ∧ m ≤ 12 → 1 ≤ dd ∧ dd ≤ 31 → ¬(0 ≤ hh ∧ hh ≤ 23) →
      generate_chart env eng d = .err "Hour must be between 0 and 23")
    ∧ (1900 ≤ y ∧ y ≤ 2025 → 1 ≤ m ∧ m ≤ 12 → 1 ≤ dd ∧ dd ≤ 31 → 0 ≤ hh ∧ hh ≤ 23 →
      ¬(0 ≤ mi ∧ mi ≤ 59) →
      generate_chart env eng d = .err "Minute must be between 0 and 59")
    ∧ (1900 ≤ y ∧ y ≤ 2025 → 1 ≤ m ∧ m ≤ 12 → 1 ≤ dd ∧ dd ≤ 31 → 0 ≤ hh ∧ hh ≤ 23 →
      0 ≤ mi ∧ mi ≤ 59 → pyDateValid y m dd = false →
      generate_chart env eng d = .err "Invalid date")
    ∧ (1900 ≤ y ∧ y ≤ 2025 → 1 ≤ m ∧ m ≤ 12 → 1 ≤ dd ∧ dd ≤ 31 → 0 ≤ hh ∧ hh ≤ 23 →
      0 ≤ mi ∧ mi ≤ 59 → pyDateValid y m dd = true → d.input_method = "manual" →
      (d.latitude = none ∨ d.longitude = none ∨ d.timezone = "") →
      generate_chart env eng d
        = .err "Latitude, longitude, and timezone are required for manual input")
    ∧ (1900 ≤ y ∧ y ≤ 2025 → 1 ≤ m ∧ m ≤ 12 → 1 ≤ dd ∧ dd ≤ 31 → 0 ≤ hh ∧ hh ≤ 23 →
      0 ≤ mi ∧ mi ≤ 59 → pyDateValid y m dd = true → d.input_method = "manual" →
      ∀ lat lon, d.latitude = some lat → d.longitude = some lon → d.timezone ≠ "" →
      ¬(-90 ≤ lat ∧ lat ≤ 90) →
      generate_chart env eng d = .err "Latitude must be between -90 and 90")
    ∧ (1900 ≤ y ∧ y ≤ 2025 → 1 ≤ m ∧ m ≤ 12 → 1 ≤ dd ∧ dd ≤ 31 → 0 ≤ hh ∧ hh ≤ 23 →
      0 ≤ mi ∧ mi ≤ 59 → pyDateValid y m dd = true → d.input_method = "manual" →
      ∀ lat lon, d.latitude = some lat → d.longitude = some lon → d.timezone ≠ "" →
      -90 ≤ lat ∧ lat ≤ 90 → ¬(-180 ≤ lon ∧ lon ≤ 180) →
      generate_chart env eng d = .err "Longitude must be between -180 and 180")
    ∧ (1900 ≤ y ∧ y ≤ 2025 → 1 ≤ m ∧ m ≤ 12 → 1 ≤ dd ∧ dd ≤ 31 → 0 ≤ hh ∧ hh ≤ 23 →
      0 ≤ mi ∧ mi ≤ 59 → pyDateValid y m dd = true → d.input_method ≠ "manual" →
      (d.country = "" ∨ d.state = "" ∨ d.city = "" ∨ d.timezone = "") →
      generate_chart env eng d = .err "Country, state, city, and timezone are required")
    ∧ (1900 ≤ y ∧ y ≤ 2025 → 1 ≤ m ∧ m ≤ 12 → 1 ≤ dd ∧ dd ≤ 31 → 0 ≤ hh ∧ hh ≤ 23 →
      0 ≤ mi ∧ mi ≤ 59 → pyDateValid y m dd = true → d.input_method ≠ "manual" →
      d.country ≠ "" → d.state ≠ "" → d.city ≠ "" → d.timezone ≠ "" →
      lookupLast env.city_data d.country = none →
      generate_chart env eng d = .err ("Country " ++ d.country ++ " not found in city data"))
    ∧ (1900 ≤ y ∧ y ≤ 2025 → 1 ≤ m ∧ m ≤ 12 → 1 ≤ dd ∧ dd ≤ 31 → 0 ≤ hh ∧ hh ≤ 23 →
      0 ≤ mi ∧ mi ≤ 59 → pyDateValid y m dd = true → d.input_method ≠ "manual" →
      d.country ≠ "" → d.state ≠ "" → d.city ≠ "" → d.timezone ≠ "" →
      ∀ cities, lookupLast env.city_data d.country = some cities →
      cities.find? (fun c => c.city == d.city && c.state == d.state) = none →
      generate_chart env eng d
        = .err ("City " ++ d.city ++ ", " ++ d.state ++ " not found in " ++ d.country))
    ∧ (∃ pre post, "Year must be between 1900 and 2025" = pre ++ "1900 and 2025" ++ post) := by
  refine ⟨?_, ?_, ?_, ?_, ?_, ?_, ?_, ?_, ?_, ?_, ?_, ?_, ⟨"Year must be between ", "", rfl⟩⟩
  · intro hr
    simp [generate_chart, generate_chart_inner, preflight, jvalCmp, hy, hr]
  · intro h1 hr
    simp [generate_chart, generate_chart_inner, preflight, jvalCmp, hy, hm, h1.1, h1.2, hr]
  · intro h1 h2 hr
    simp [generate_chart, generate_chart_inner, preflight, jvalCmp, hy, hm, hd,
          h1.1, h1.2, h2.1, h2.2, hr]
  · intro h1 h2 h3 hr
    simp [generate_chart, generate_chart_inner, preflight, jvalCmp, hy, hm, hd, hho,
          h1.1, h1.2, h2.1, h2.2, h3.1, h3.2, hr]
  · intro h1 h2 h3 h4 hr
    simp [generate_chart, generate_chart_inner, preflight, jvalCmp, hy, hm, hd, hho, hmi,
          h1.1, h1.2, h2.1, h2.2, h3.1, h3.2, h4.1, h4.2, hr]
  · intro h1 h2 h3 h4 h5 hdate
    simp [generate_chart, generate_chart_inner, preflight, jvalCmp, datetimeValid,
          hy, hm, hd, hho, hmi,
          h1.1, h1.2, h2.1, h2.2, h3.1, h3.2, h4.1, h4.2, h5.1, h5.2, hdate]
  · intro h1 h2 h3 h4 h5 hdate hman hmiss
    rcases hmiss with h | h | h
    · simp [generate_chart, generate_chart_inner, preflight, jvalCmp, datetimeValid,
            resolveLocation, hy, hm, hd, hho, hmi,
            h1.1, h1.2, h2.1, h2.2, h3.1, h3.2, h4.1, h4.2, h5.1, h5.2, hdate, hman, h]
    · cases hl : d.latitude <;>
        simp [generate_chart, generate_chart_inner, preflight, jvalCmp, datetimeValid,
              resolveLocation, hy, hm, hd, hho, hmi,
              h1.1, h1.2, h2.1, h2.2, h3.1, h3.2, h4.1, h4.2, h5.1, h5.2, hdate, hman, h, hl]
    · cases hl : d.latitude <;> cases hlo : d.longitude <;>
        simp [generate_chart, generate_chart_inner, preflight, jvalCmp, datetimeValid,
              resolveLocation, hy, hm, hd, hho, hmi,
              h1.1, h1.2, h2.1, h2.2, h3.1, h3.2, h4.1, h4.2, h5.1, h5.2, hdate, hman, h, hl, hlo]
  · intro h1 h2 h3 h4 h5 hdate hman lat lon hla hlo htz hr
    simp [generate_chart, generate_chart_inner, preflight, jvalCmp, datetimeValid,
          resolveLocation, hy, hm, hd, hho, hmi,
          h1.1, h1.2, h2.1, h2.2, h3.1, h3.2, h4.1, h4.2, h5.1, h5.2, hdate, hman,
          hla, hlo, htz, hr]
  · intro h1 h2 h3 h4 h5 hdate hman lat lon hla hlo htz hlat hr
    simp [generate_chart, generate_chart_inner, preflight, jvalCmp, datetimeValid,
          resolveLocation, hy, hm, hd, hho, hmi,
          h1.1, h1.2, h2.1, h2.2, h3.1, h3.2, h4.1, h4.2, h5.1, h5.2, hdate, hman,
          hla, hlo, htz, hlat.1, hlat.2, hr]
  · intro h1 h2 h3 h4 h5 hdate hman hmiss
    rcases hmiss with h | h | h | h <;>
      simp [generate_chart, generate_chart_inner, preflight, jvalCmp, datetimeValid,
            resolveLocation, hy, hm, hd, hho, hmi,
            h1.1, h1.2, h2.1, h2.2, h3.1, h3.2, h4.1, h4.2, h5.1, h5.2, hdate, hman, h]
  · intro h1 h2 h3 h4 h5 hdate hman hco hst hci htz hcc
    simp [generate_chart, generate_chart_inner, preflight, jvalCmp, datetimeValid,
          resolveLocation, hy, hm, hd, hho, hmi,
          h1.1, h1.2, h2.1, h2.2, h3.1, h3.2, h4.1, h4.2, h5.1, h5.2, hdate, hman,
          hco, hst, hci, htz, hcc]
  · intro h1 h2 h3 h4 h5 hdate hman hco hst hci htz cities hcc hf
    simp [generate_chart, generate_chart_inner, preflight, jvalCmp, datetimeValid,
          resolveLocation, hy, hm, hd, hho, hmi,
          h1.1, h1.2, h2.1, h2.2, h3.1, h3.2, h4.1, h4.2, h5.1, h5.2, hdate, hman,
          hco, hst, hci, htz, hcc, hf]

/-- Witness for C1 at concrete requests: year 1800 (first check fires and its
message mentions 1900 and 2025), April 31 and Feb 29 of 1900 (calendar
check), and an unknown country in city mode. -/
theorem spec_C1_witness :
    generate_chart sampleEnv (constEngine sampleSubject "SVG")
        ⟨"User", .int 1800, .int 6, .int 15, .int 12, .int 0, "manual", "", "", "",
         some 40, some (-74), "-5"⟩
      = .err "Year must be between 1900 and 2025"
    ∧ generate_chart sampleEnv (constEngine sampleSubject "SVG")
        ⟨"User", .int 2000, .int 4, .int 31, .int 12, .int 0, "manual", "", "", "",
         some 40, some (-74), "-5"⟩
      = .err "Invalid date"
    ∧ generate_chart sampleEnv (constEngine sampleSubject "SVG")
        ⟨"User", .int 1900, .int 2, .int 29, .int 12, .int 0, "manual", "", "", "",
         some 40, some (-74), "-5"⟩
      = .err "Invalid date"
    ∧ generate_chart sampleEnv (constEngine sampleSubject "SVG")
        ⟨"User", .int 2000, .int 6, .int 15, .int 12, .int 0, "city", "Paris", "IDF", "France",
         none, none, "0"⟩
      = .err ("Country " ++ "France" ++ " not found in city data") :=
  ⟨(spec_C1_validation_precedence sampleEnv (constEngine sampleSubject "SVG") _
      1800 6 15 12 0 rfl rfl rfl rfl rfl).1 (by decide),
   (spec_C1_validation_precedence sampleEnv (constEngine sampleSubject "SVG") _
      2000 4 31 12 0 rfl rfl rfl rfl rfl).2.2.2.2.2.1
      (by decide) (by decide) (by decide) (by decide) (by decide) (by decide),
   (spec_C1_validation_precedence sampleEnv (constEngine sampleSubject "SVG") _
      1900 2 29 12 0 rfl rfl rfl rfl rfl).2.2.2.2.2.1
      (by decide) (by decide) (by decide) (by decide) (by decide) (by decide),
   (spec_C1_validation_precedence sampleEnv (constEngine sampleSubject "SVG") _
      2000 6 15 12 0 rfl rfl rfl rfl rfl).2.2.2.2.2.2.2.2.2.2.1
      (by decide) (by decide) (by decide) (by decide) (by decide) (by decide)
      (by decide) (by decide) (by decide) (by decide) (by decide) rfl⟩

/-- Counterexample for C4 as stated: the claim asserts that EVERY failure of
the external chart computation is mapped to the generic
`Failed to generate chart: Invalid parameters` message with the exception
detail never exposed; but a failure raised by the chart rendering step
(`KerykeionChartSVG` / `makeTemplate`, which runs OUTSIDE the inner
try/except) reaches the outer handler, which returns `str(e)` — the raw
exception detail — as the error message. -/
theorem spec_C4_cex :
    generate_chart sampleEnv
        (renderFailEngine sampleSubject "ZeroDivisionError: secret engine detail")
        manualData
      = .err "ZeroDivisionError: secret engine detail"
    ∧ "ZeroDivisionError: secret engine detail"
        ≠ "Failed to generate chart: Invalid parameters" :=
  ⟨by decide, by decide⟩

/-- Claim C4 (amended): for a request that passes validation, a failure of
the `AstrologicalSubject` constructor is caught and mapped to the generic
`Failed to generate chart: Invalid parameters` message with the exception
detail suppressed (only logged); a failure of the subsequent chart rendering
is caught by the outer handler and returned as success=false with the
exception detail as the message. -/
theorem spec_C4_exception_paths (env : Env) (eng : Engine) (d : RequestData)
    (y m dd hh mi : Int) (lat lon : ℚ) (tz : String)
    (hy : d.year = .int y) (hm : d.month = .int m) (hd : d.day = .int dd)
    (hho : d.hour = .int hh) (hmi : d.minute = .int mi)
    (h1 : 1900 ≤ y ∧ y ≤ 2025) (h2 : 1 ≤ m ∧ m ≤ 12) (h3 : 1 ≤ dd ∧ dd ≤ 31)
    (h4 : 0 ≤ hh ∧ hh ≤ 23) (h5 : 0 ≤ mi ∧ mi ≤ 59)
    (hdate : pyDateValid y m dd = true)
    (hloc : resolveLocation env d = .inr (lat, lon))
    (htz : lookupLast utc_to_pytz d.timezone = some tz)
    (hrec : pytz_recognized tz = true) :
    (∀ e, eng.subject d.name d.year d.month d.day d.hour d.minute lon lat tz = .error e →
      generate_chart env eng d = .err "Failed to generate chart: Invalid parameters")
    ∧ (∀ subj e, eng.subject d.name d.year d.month d.day d.hour d.minute lon lat tz = .ok subj →
      eng.render subj = .error e →
      generate_chart env eng d = .err e) := by
  constructor
  · intro e hsub
    rw [hy, hm, hd, hho, hmi] at hsub
    simp [generate_chart, generate_chart_inner, preflight, jvalCmp, datetimeValid,
          hy, hm, hd, hho, hmi, h1.1, h1.2, h2.1, h2.2, h3.1, h3.2, h4.1, h4.2, h5.1, h5.2,
          hdate, hloc, htz, hrec, hsub]
  · intro subj e hsub hrend
    rw [hy, hm, hd, hho, hmi] at hsub
    simp [generate_chart, generate_chart_inner, preflight, jvalCmp, datetimeValid,
          hy, hm, hd, hho, hmi, h1.1, h1.2, h2.1, h2.2, h3.1, h3.2, h4.1, h4.2, h5.1, h5.2,
          hdate, hloc, htz, hrec, hsub, hrend]

/-- Witness for C4 (amended) at concrete engines: a failing subject
constructor yields the generic message, a failing renderer leaks its own
message. -/
theorem spec_C4_witness :
    generate_chart sampleEnv (failSubjectEngine "boom") manualData
      = .err "Failed to generate chart: Invalid parameters"
    ∧ generate_chart sampleEnv (renderFailEngine sampleSubject "render detail") manualData
      = .err "render detail" :=
  ⟨(spec_C4_exception_paths sampleEnv (failSubjectEngine "boom") manualData
      1990 6 15 12 0 40 (-74) "America/New_York" rfl rfl rfl rfl rfl
      (by decide) (by decide) (by decide) (by decide) (by decide) (by decide)
      (by decide) (by decide) (by decide)).1 "boom" rfl,
   (spec_C4_exception_paths sampleEnv (renderFailEngine sampleSubject "render detail") manualData
      1990 6 15 12 0 40 (-74) "America/New_York" rfl rfl rfl rfl rfl
      (by decide) (by decide) (by decide) (by decide) (by decide) (by decide)
      (by decide) (by decide) (by decide)).2 sampleSubject "render detail" rfl rfl⟩

/-- Claim C5: every successful response carries exactly 11 planet records,
ordered Ascendant, Sun, Moon, Mercury, Venus, Mars, Jupiter, Saturn, Uranus,
Neptune, Pluto, and the Ascendant record (the head) has house
`First_House` regardless of the engine output. -/
theorem spec_C5_planet_order (env : Env) (eng : Engine) (d : RequestData)
    (svg : String) (ps : List Planet) (hs : List HouseRec) (asp : List AspectRec)
    (pints atext : List String)
    (h : generate_chart env eng d = .ok svg ps hs asp pints atext) :
    ps.map (fun p => p.name)
      = ["Ascendant", "Sun", "Moon", "Mercury", "Venus", "Mars", "Jupiter",
         "Saturn", "Uranus", "Neptune", "Pluto"]
    ∧ ps.length = 11
    ∧ (ps.head?).map (fun p => p.house) = some "First_House" := by
  obtain ⟨subj, hps, -, -, -, -⟩ := gc_ok_inv env eng d svg ps hs asp pints atext h
  subst hps
  exact ⟨rfl, rfl, rfl⟩

/-- Witness for C5 on a concrete successful run (the spec's end-to-end
manual request against a constant engine). -/
theorem spec_C5_witness :
    samplePlanets.map (fun p => p.name)
      = ["Ascendant", "Sun", "Moon", "Mercury", "Venus", "Mars", "Jupiter",
         "Saturn", "Uranus", "Neptune", "Pluto"]
    ∧ samplePlanets.length = 11
    ∧ (samplePlanets.head?).map (fun p => p.house) = some "First_House" :=
  spec_C5_planet_order sampleEnv (constEngine sampleSubject "SVG") manualData
    "SVG" samplePlanets [] [] sampleLines [] (by decide)

/-- Claim C7: for a request that passes date and location validation, an
offset missing from `utc_to_pytz` fails with a message naming that offset;
every offset present in the table maps to a non-empty zone name recognized
by the (spec-modelled) pytz database. -/
theorem spec_C7_timezone_resolution :
    (∀ k z, lookupLast utc_to_pytz k = some z → z ≠ "" ∧ pytz_recognized z = true)
    ∧ (∀ (env : Env) (eng : Engine) (d : RequestData) (y m dd hh mi : Int) (lat lon : ℚ),
        d.year = .int y → d.month = .int m → d.day = .int dd → d.hour = .int hh →
        d.minute = .int mi → 1900 ≤ y ∧ y ≤ 2025 → 1 ≤ m ∧ m ≤ 12 → 1 ≤ dd ∧ dd ≤ 31 →
        0 ≤ hh ∧ hh ≤ 23 → 0 ≤ mi ∧ mi ≤ 59 → pyDateValid y m dd = true →
        resolveLocation env d = .inr (lat, lon) →
        lookupLast utc_to_pytz d.timezone = none →
        generate_chart env eng d = .err ("Invalid timezone offset: " ++ d.timezone)) := by
  constructor
  · intro k z h
    have hall : ∀ p ∈ utc_to_pytz, p.2 ≠ "" ∧ pytz_recognized p.2 = true := by decide
    exact hall _ (lookupLast_mem _ _ _ h)
  · intro env eng d y m dd hh mi lat lon hy hm hd hho hmi h1 h2 h3 h4 h5 hdate hloc htz
    simp [generate_chart, generate_chart_inner, preflight, jvalCmp, datetimeValid,
          hy, hm, hd, hho, hmi, h1.1, h1.2, h2.1, h2.2, h3.1, h3.2, h4.1, h4.2, h5.1, h5.2,
          hdate, hloc, htz]

/-- Witness for C7 at the offset in the table used by the spec's end-to-end
test and at the unknown offset 99. -/
theorem spec_C7_witness :
    ("America/New_York" ≠ "" ∧ pytz_recognized "America/New_York" = true)
    ∧ generate_chart sampleEnv (constEngine sampleSubject "SVG")
        ⟨"User", .int 1990, .int 6, .int 15, .int 12, .int 0, "manual", "", "", "",
         some 40, some (-74), "99"⟩
      = .err ("Invalid timezone offset: " ++ "99") :=
  ⟨spec_C7_timezone_resolution.1 "-5" "America/New_York" (by decide),
   spec_C7_timezone_resolution.2 sampleEnv (constEngine sampleSubject "SVG")
     ⟨"User", .int 1990, .int 6, .int 15, .int 12, .int 0, "manual", "", "", "",
      some 40, some (-74), "99"⟩ 1990 6 15 12 0 40 (-74)
     rfl rfl rfl rfl rfl (by decide) (by decide) (by decide) (by decide) (by decide)
     (by decide) (by decide) (by decide)⟩

/-- Claim C8: missing optional engine data is non-fatal — with no
`houses_list` the request still succeeds and the houses field is the empty
list; with no `aspects_list` the aspects are the fallback calculation over
the 55 unordered pairs of the 11 bodies. -/
theorem spec_C8_degraded_data (env : Env) (d : RequestData) (subj : Subject) (svg : String)
    (y m dd hh mi : Int) (lat lon : ℚ) (tz : String)
    (hy : d.year = .int y) (hm : d.month = .int m) (hd : d.day = .int dd)
    (hho : d.hour = .int hh) (hmi : d.minute = .int mi)
    (h1 : 1900 ≤ y ∧ y ≤ 2025) (h2 : 1 ≤ m ∧ m ≤ 12) (h3 : 1 ≤ dd ∧ dd ≤ 31)
    (h4 : 0 ≤ hh ∧ hh ≤ 23) (h5 : 0 ≤ mi ∧ mi ≤ 59)
    (hdate : pyDateValid y m dd = true)
    (hloc : resolveLocation env d = .inr (lat, lon))
    (htz : lookupLast utc_to_pytz d.timezone = some tz)
    (hrec : pytz_recognized tz = true) :
    (subj.houses_list = none →
      generate_chart env (constEngine subj svg) d
        = .ok svg (normalizePlanets (buildPlanets subj)) [] (buildAspects subj)
            ((normalizePlanets (buildPlanets subj)).map (planetLine env.planets_in_houses))
            ((buildAspects subj).map (aspectLine env.aspects_tbl)))
    ∧ (subj.aspects_list = none →
        buildAspects subj = fallbackAspects (fallbackBodies subj))
    ∧ (pairList (fallbackBodies subj)).length = 55 := by
  refine ⟨?_, ?_, rfl⟩
  · intro hhl
    simp [generate_chart, generate_chart_inner, preflight, jvalCmp, datetimeValid, constEngine,
          buildHouses, hy, hm, hd, hho, hmi, h1.1, h1.2, h2.1, h2.2, h3.1, h3.2, h4.1, h4.2,
          h5.1, h5.2, hdate, hloc, htz, hrec, hhl]
  · intro hal
    simp [buildAspects, hal]

/-- Witness for C8 on a concrete subject missing both optional attributes:
the request succeeds, houses degrade to the empty list and aspects to the
55-pair fallback calculation. -/
theorem spec_C8_witness :
    generate_chart sampleEnv (constEngine noDataSubject "SVG") manualData
      = .ok "SVG" (normalizePlanets (buildPlanets noDataSubject)) []
          (buildAspects noDataSubject)
          ((normalizePlanets (buildPlanets noDataSubject)).map
            (planetLine sampleEnv.planets_in_houses))
          ((buildAspects noDataSubject).map (aspectLine sampleEnv.aspects_tbl))
    ∧ buildAspects noDataSubject = fallbackAspects (fallbackBodies noDataSubject)
    ∧ (pairList (fallbackBodies noDataSubject)).length = 55 :=
  have h := spec_C8_degraded_data sampleEnv manualData noDataSubject "SVG"
    1990 6 15 12 0 40 (-74) "America/New_York" rfl rfl rfl rfl rfl
    (by decide) (by decide) (by decide) (by decide) (by decide) (by decide)
    (by decide) (by decide) (by decide)
  ⟨h.1 rfl, h.2.1 rfl, h.2.2⟩

/-- Claim C9: the handler never propagates an unhandled fault — every
request, including one whose date/time fields are missing (`None`) or
non-numeric (for which the Python range comparison itself raises), yields a
response that is either a success payload or a tagged error message. -/
theorem spec_C9_no_unhandled_fault (env : Env) (eng : Engine) (d : RequestData) :
    ((∃ svg ps hs asp pints atext,
        generate_chart env eng d = .ok svg ps hs asp pints atext)
      ∨ (∃ msg, generate_chart env eng d = .err msg))
    ∧ (d.year = JVal.null →
        generate_chart env eng d
          = .err "TypeError: comparison not supported between int and the given operand")
    ∧ (∀ s, d.year = JVal.str s →
        generate_chart env eng d
          = .err "TypeError: comparison not supported between int and the given operand") := by
  refine ⟨?_, ?_, ?_⟩
  · cases hg : generate_chart env eng d with
    | ok svg ps hs asp pints atext => exact .inl ⟨svg, ps, hs, asp, pints, atext, rfl⟩
    | err msg => exact .inr ⟨msg, rfl⟩
  · intro hy
    simp [generate_chart, generate_chart_inner, preflight, jvalCmp, hy]
  · intro s hy
    simp [generate_chart, generate_chart_inner, preflight, jvalCmp, hy]

/-- Witness for C9 on a request whose year field is missing: the raised
comparison is caught and surfaced as a tagged error response. -/
theorem spec_C9_witness :
    generate_chart sampleEnv (constEngine sampleSubject "SVG")
        ⟨"User", JVal.null, .int 6, .int 15, .int 12, .int 0, "manual", "", "", "",
         some 40, some (-74), "-5"⟩
      = .err "TypeError: comparison not supported between int and the given operand" :=
  (spec_C9_no_unhandled_fault sampleEnv (constEngine sampleSubject "SVG")
    ⟨"User", JVal.null, .int 6, .int 15, .int 12, .int 0, "manual", "", "", "",
     some 40, some (-74), "-5"⟩).2.1 rfl
